import Mathlib

/-!
Verification of the ffprobe-shim repository.

This file is a shallow embedding of the core of src/ffprobe.go (the
filename-to-media-metadata inference engine) and of the tuning-option
rewriting in src/cmd/ffprobe-shim/main.go, together with theorems that
settle the frozen claims about that code.

Modelling conventions:
- The external release-name tokenizer (ptn.Parse) is an external
  collaborator; its result is passed in as an `Option Info` parameter
  (`none` models a parse error, which the code treats as "skip
  enrichment" respectively "no hint signal").
- Go iterates maps in a randomized order.  The two codec synonym tables
  are therefore passed to the substring-search stages as explicit entry
  lists (`vorder`, `aorder`); a legal execution of the Go program
  corresponds to an arbitrary permutation of the canonical entry list.
- Go machine integers are modelled as Int with the explicit range check
  that strconv.Atoi performs (64-bit bounds).
- Assigning into a nil Go map is a runtime fault that crashes the
  process; map-typed fields are modelled as `Option` of an association
  list and the assignment as a fallible operation (`Except Unit _`).
- strings.Contains works on bytes; every needle the program uses is
  ASCII, for which codepoint-level containment coincides with byte-level
  containment.  strings.ToLower / strings.ToUpper are modelled by the
  ASCII case maps (every substring the program searches for after case
  mapping is ASCII).
-/

namespace FFShim

/-! ## String helpers mirroring the Go standard library -/

/-- Whether the first list is a prefix of the second (Boolean). -/
def isPrefOf : List Char → List Char → Bool
  | [], _ => true
  | _ :: _, [] => false
  | a :: as, b :: bs => a = b && isPrefOf as bs

/-- Containment of `needle` in `hay` as contiguous run (strings.Contains). -/
def goContainsL : List Char → List Char → Bool
  | hay, needle =>
    isPrefOf needle hay ||
    match hay with
    | [] => false
    | _ :: rest => goContainsL rest needle

/-- strings.Contains, on strings. -/
def goContains (s sub : String) : Bool :=
  goContainsL s.toList sub.toList

/-- strings.ToLower (ASCII case map; see header note). -/
def goToLower (s : String) : String := String.mk (s.toList.map Char.toLower)

/-- strings.ToUpper (ASCII case map; see header note). -/
def goToUpper (s : String) : String := String.mk (s.toList.map Char.toUpper)

/-- Value of a digit list read in base 10. -/
def digitsVal (cs : List Char) : Nat :=
  cs.foldl (fun a c => a * 10 + (c.toNat - 48)) 0

/-- strconv.Atoi: optional sign, one or more digits, 64-bit range check.
Returns `none` where Go returns a non-nil error. -/
def atoi (s : String) : Option Int :=
  match s.toList with
  | [] => none
  | '+' :: cs =>
    if cs ≠ [] ∧ cs.all Char.isDigit ∧ digitsVal cs < 9223372036854775808
    then some (Int.ofNat (digitsVal cs)) else none
  | '-' :: cs =>
    if cs ≠ [] ∧ cs.all Char.isDigit ∧ digitsVal cs ≤ 9223372036854775808
    then some (-(Int.ofNat (digitsVal cs))) else none
  | cs =>
    if cs.all Char.isDigit ∧ digitsVal cs < 9223372036854775808
    then some (Int.ofNat (digitsVal cs)) else none

/-- The base filename of a path: everything after the last slash
(filepath[strings.LastIndex(filepath, \x22/\x22)+1:]). -/
def baseName (filepath : String) : String :=
  String.mk ((filepath.toList.reverse.takeWhile (fun c => c ≠ '/')).reverse)

/-! ## Data model (the structs of src/ffprobe.go)

Only the fields the program ever reads or writes are carried; the
remaining omit-if-empty fields of the Go structs always hold their zero
value and do not participate in any claim.  The unused Chapters slice is
omitted for the same reason. -/

/-- Stream represents an ffprobe media stream. -/
structure Stream where
  Index : Int
  CodecName : String
  CodecLongName : String
  Profile : String
  CodecType : String
  CodecTagString : String
  CodecTag : String
  Width : Int
  Height : Int
  PixFmt : String
  ColorRange : String
  ColorSpace : String
  ColorTransfer : String
  ColorPrimaries : String
  ChromaLocation : String
  FieldOrder : String
  RFrameRate : String
  AvgFrameRate : String
  TimeBase : String
  StartTime : String
  Duration : String
  BitRate : String
  Disposition : Option (List (String × Int))
  Tags : Option (List (String × String))
  Channels : Int
  SampleRate : String
  deriving DecidableEq

/-- Format represents ffprobe format information. -/
structure Format where
  Filename : String
  NbStreams : Int
  FormatName : String
  FormatLongName : String
  Duration : String
  Size : String
  BitRate : String
  Tags : Option (List (String × String))
  deriving DecidableEq

/-- FFProbeResponse represents the full ffprobe output structure. -/
structure FFProbeResponse where
  Streams : List Stream
  Format : Format
  deriving DecidableEq

/-- Result of the external release-name tokenizer (ptn.Info), restricted
to the fields the program reads. -/
structure Info where
  Title : String
  Season : Int
  Episode : Int
  Year : Int
  Quality : String
  Codec : String
  Group : String
  Container : String
  deriving DecidableEq

/-- An Info with every field at its zero value (no signal at all). -/
def emptyInfo : Info :=
  { Title := "", Season := 0, Episode := 0, Year := 0,
    Quality := "", Codec := "", Group := "", Container := "" }

/-- A Stream with every field at its Go zero value. -/
def emptyStream : Stream where
  Index := 0
  CodecName := ""
  CodecLongName := ""
  Profile := ""
  CodecType := ""
  CodecTagString := ""
  CodecTag := ""
  Width := 0
  Height := 0
  PixFmt := ""
  ColorRange := ""
  ColorSpace := ""
  ColorTransfer := ""
  ColorPrimaries := ""
  ChromaLocation := ""
  FieldOrder := ""
  RFrameRate := ""
  AvgFrameRate := ""
  TimeBase := ""
  StartTime := ""
  Duration := ""
  BitRate := ""
  Disposition := none
  Tags := none
  Channels := 0
  SampleRate := ""

/-- A Format with every field at its Go zero value. -/
def emptyFormat : Format where
  Filename := ""
  NbStreams := 0
  FormatName := ""
  FormatLongName := ""
  Duration := ""
  Size := ""
  BitRate := ""
  Tags := none

/-! ## The template store (TEMPLATES of src/ffprobe.go) -/

/-- Video stream of the tv_show template. -/
def tvVideoStream : Stream :=
  { emptyStream with Index := 0, CodecName := "h264", CodecType := "video",
                     Width := 1920, Height := 1080, Duration := "2700.000000",
                     BitRate := "5000000" }

/-- Audio stream of the tv_show template. -/
def tvAudioStream : Stream :=
  { emptyStream with Index := 1, CodecName := "aac", CodecType := "audio",
                     Channels := 6, SampleRate := "48000", BitRate := "384000",
                     Duration := "2700.000000" }

/-- Baseline response for the tv_show template. -/
def tvShowTemplate : FFProbeResponse where
  Streams := [tvVideoStream, tvAudioStream]
  Format :=
    { emptyFormat with NbStreams := 2, FormatName := "matroska,webm",
                       FormatLongName := "Matroska / WebM", Duration := "2700.000000",
                       Size := "1500000000", BitRate := "5384000" }

/-- Video stream of the movie template. -/
def movieVideoStream : Stream :=
  { emptyStream with Index := 0, CodecName := "h264", CodecType := "video",
                     Width := 1920, Height := 1080, Duration := "7200.000000",
                     BitRate := "8000000" }

/-- Audio stream of the movie template. -/
def movieAudioStream : Stream :=
  { emptyStream with Index := 1, CodecName := "dts", CodecType := "audio",
                     Channels := 6, Duration := "7200.000000", SampleRate := "48000",
                     BitRate := "1536000" }

/-- Baseline response for the movie template. -/
def movieTemplate : FFProbeResponse where
  Streams := [movieVideoStream, movieAudioStream]
  Format :=
    { emptyFormat with NbStreams := 2, FormatName := "matroska,webm",
                       FormatLongName := "Matroska / WebM", Duration := "7200.000000",
                       Size := "3500000000", BitRate := "9536000" }

/-- The template store. -/
def TEMPLATES : List (String × FFProbeResponse) :=
  [("tv_show", tvShowTemplate), ("movie", movieTemplate)]

/-! ## Codec synonym tables

These are Go maps in the source.  A deterministic lookup by key goes
through List.lookup on the canonical entry list (written in source
order); the randomized range iteration of the substring-search stages is
modelled by passing an entry list explicitly. -/

/-- Canonical entry list of VIDEO_CODEC_MAP, in source order. -/
def VIDEO_CODEC_MAP : List (String × String) :=
  [("x264", "h264"), ("x265", "hevc"), ("h264", "h264"), ("hevc", "hevc"),
   ("h265", "hevc"), ("xvid", "mpeg4"), ("divx", "mpeg4"), ("10bit", "hevc"),
   ("avc", "h264"), ("vc-1", "vc1"), ("bluray", "h264"), ("web-dl", "h264"),
   ("webrip", "h264"), ("hdtv", "h264")]

/-- Canonical entry list of AUDIO_CODEC_MAP, in source order. -/
def AUDIO_CODEC_MAP : List (String × String) :=
  [("dts", "dts"), ("dtshd", "dts"), ("dts-hd", "dts"), ("truehd", "truehd"),
   ("dd5.1", "ac3"), ("dd", "ac3"), ("ac3", "ac3"), ("aac", "aac"),
   ("eac3", "eac3"), ("flac", "flac"), ("atmos", "truehd"), ("dolby", "ac3"),
   ("5.1", "ac3"), ("7.1", "dts")]

/-! ## Enrichment engine (enhanceResponseWithPTN of src/ffprobe.go)

The Go function mutates the response in place in seven successive
blocks; each block is a stage function here, applied in source order. -/

/-- Duration constant chosen from the hint (the if/else chain at the top
of enhanceResponseWithPTN). -/
def durationFor (info : Info) : String :=
  if info.Episode ≠ 0 then
    if goContains (goToLower info.Title) "anime" then "24.000000" else "2700.000000"
  else "7200.000000"

/-- Write the chosen duration into a stream of video or audio kind. -/
def setStreamDuration (dur : String) (s : Stream) : Stream :=
  if s.CodecType = "video" then { s with Duration := dur }
  else if s.CodecType = "audio" then { s with Duration := dur }
  else s

/-- Stage 1: set format and stream durations. -/
def stageDuration (info : Info) (r : FFProbeResponse) : FFProbeResponse :=
  { r with Format := { r.Format with Duration := durationFor info },
           Streams := r.Streams.map (setStreamDuration (durationFor info)) }

/-- Width and height for a quality label (the if/else chain of the
resolution block; unknown labels give the pair of zeros). -/
def qualityDims (q : String) : Int × Int :=
  if q = "720p" then (1280, 720)
  else if q = "1080p" then (1920, 1080)
  else if q = "2160p" ∨ q = "4K" then (3840, 2160)
  else (0, 0)

/-- Per-stream body of the resolution block: video streams get the new
dimensions and the resolution-driven bit rate (and codec name hevc in
the 4K case). -/
def applyQuality (q : String) (s : Stream) : Stream :=
  if s.CodecType = "video" then
    let s := { s with Width := (qualityDims q).1, Height := (qualityDims q).2 }
    if q = "720p" then { s with BitRate := "3000000" }
    else if q = "1080p" then { s with BitRate := "8000000" }
    else if q = "2160p" ∨ q = "4K" then { s with BitRate := "25000000", CodecName := "hevc" }
    else s
  else s

/-- Stage 2: resolution block; runs only when the quality label is
nonempty and maps to nonzero dimensions. -/
def stageQuality (info : Info) (r : FFProbeResponse) : FFProbeResponse :=
  if info.Quality ≠ "" ∧ (qualityDims info.Quality).1 ≠ 0 ∧ (qualityDims info.Quality).2 ≠ 0 then
    { r with Streams := r.Streams.map (applyQuality info.Quality) }
  else r

/-- First key of the entry list (in the given iteration order) that is a
substring of the lowercased field; empty string when none hits.  This is
the inner range loop of the substring search. -/
def searchOneField (order : List (String × String)) (field : String) : String :=
  match order.find? (fun kv => goContains (goToLower field) kv.1) with
  | some kv => kv.2
  | none => ""

/-- Outer loop of the video codec substring search over the hint fields. -/
def searchFields (order : List (String × String)) : List String → String
  | [] => ""
  | f :: rest =>
    let c := searchOneField order f
    if c ≠ "" then c else searchFields order rest

/-- Outer loop of the audio codec substring search: identical but skips
empty fields. -/
def searchFieldsSkipEmpty (order : List (String × String)) : List String → String
  | [] => ""
  | f :: rest =>
    if f = "" then searchFieldsSkipEmpty order rest
    else
      let c := searchOneField order f
      if c ≠ "" then c else searchFieldsSkipEmpty order rest

/-- Two-stage video codec inference: exact lookup of the codec label,
else substring search of group, title and container in that order.  The
substring stage depends on the map iteration order. -/
def detectVideoCodec (vorder : List (String × String)) (info : Info) : String :=
  let vc := if info.Codec ≠ "" then
      (VIDEO_CODEC_MAP.lookup (goToLower info.Codec)).getD ""
    else ""
  if vc = "" then searchFields vorder [info.Group, info.Title, info.Container]
  else vc

/-- Audio codec inference: substring search of group and title
(skipping empty fields) against the audio synonym table. -/
def detectAudioCodec (aorder : List (String × String)) (info : Info) : String :=
  searchFieldsSkipEmpty aorder [info.Group, info.Title]

/-- Overwrite the codec name of video streams. -/
def applyVideoCodec (vc : String) (s : Stream) : Stream :=
  if s.CodecType = "video" then { s with CodecName := vc } else s

/-- Overwrite the codec name of audio streams. -/
def applyAudioCodec (ac : String) (s : Stream) : Stream :=
  if s.CodecType = "audio" then { s with CodecName := ac } else s

/-- Stage 3: apply the inferred video codec when one was found. -/
def stageVideoCodec (vorder : List (String × String)) (info : Info) (r : FFProbeResponse) : FFProbeResponse :=
  if detectVideoCodec vorder info ≠ "" then
    { r with Streams := r.Streams.map (applyVideoCodec (detectVideoCodec vorder info)) }
  else r

/-- Stage 4: apply the inferred audio codec when one was found. -/
def stageAudioCodec (aorder : List (String × String)) (info : Info) (r : FFProbeResponse) : FFProbeResponse :=
  if detectAudioCodec aorder info ≠ "" then
    { r with Streams := r.Streams.map (applyAudioCodec (detectAudioCodec aorder info)) }
  else r

/-- Channel count from the release-group hint (note: the 5.1 test comes
first in the source). -/
def channelsFor (info : Info) : Int :=
  if goContains info.Group "5.1" then 6
  else if goContains info.Group "7.1" then 8
  else 2

/-- Write the channel count into audio streams. -/
def applyChannels (ch : Int) (s : Stream) : Stream :=
  if s.CodecType = "audio" then { s with Channels := ch } else s

/-- Stage 5: set audio channel counts. -/
def stageChannels (info : Info) (r : FFProbeResponse) : FFProbeResponse :=
  { r with Streams := r.Streams.map (applyChannels (channelsFor info)) }

/-- File size from the quality label (the switch of the size block). -/
def sizeFor (q : String) : String :=
  if q = "720p" then "1000000000"
  else if q = "1080p" then "3500000000"
  else if q = "2160p" ∨ q = "4K" then "15000000000"
  else "2000000000"

/-- Stage 6: overwrite the format size. -/
def stageSize (info : Info) (r : FFProbeResponse) : FFProbeResponse :=
  { r with Format := { r.Format with Size := sizeFor info.Quality } }

/-- Sum of the stream bit rates that parse as integers. -/
def sumBitRates (streams : List Stream) : Int :=
  streams.foldl (fun acc s =>
    match atoi s.BitRate with
    | some br => acc + br
    | none => acc) 0

/-- Stage 7: recompute the format bit rate when the sum is positive. -/
def stageTotalBitRate (r : FFProbeResponse) : FFProbeResponse :=
  if 0 < sumBitRates r.Streams then
    { r with Format := { r.Format with BitRate := toString (sumBitRates r.Streams) } }
  else r

/-- enhanceResponseWithPTN: on a tokenizer failure the response is
returned unmodified; otherwise the seven blocks run in source order. -/
def enhanceResponseWithPTN (parsed : Option Info) (vorder aorder : List (String × String))
    (response : FFProbeResponse) : FFProbeResponse :=
  match parsed with
  | none => response
  | some info =>
    stageTotalBitRate (stageSize info (stageChannels info (stageAudioCodec aorder info
      (stageVideoCodec vorder info (stageQuality info (stageDuration info response))))))

/-! ## Template classifier (detectFileTemplate and PATTERNS) -/

/-- Whether a tv-show regex token (a dot, the letter S, two digits, the
letter E, two digits) starts at the head of the list. -/
def isTvTokenAt : List Char → Bool
  | '.' :: 'S' :: d1 :: d2 :: 'E' :: d3 :: d4 :: _ =>
    d1.isDigit && d2.isDigit && d3.isDigit && d4.isDigit
  | _ => false

/-- Whether a movie regex token (a dot, then 19 or 20, then two digits)
starts at the head of the list. -/
def isMovieTokenAt : List Char → Bool
  | '.' :: c1 :: c2 :: d3 :: d4 :: _ =>
    ((c1 = '1' && c2 = '9') || (c1 = '2' && c2 = '0')) && d3.isDigit && d4.isDigit
  | _ => false

/-- Whether a container-extension token (.mkv, .mp4 or .avi) starts at
the head of the list. -/
def isExtTokenAt : List Char → Bool
  | '.' :: 'm' :: 'k' :: 'v' :: _ => true
  | '.' :: 'm' :: 'p' :: '4' :: _ => true
  | '.' :: 'a' :: 'v' :: 'i' :: _ => true
  | _ => false

/-- Scan for the extension token after a newline-free gap (the trailing
dot-star of the patterns; a regex dot does not cross a newline). -/
def extScan : List Char → Bool
  | [] => false
  | c :: rest => isExtTokenAt (c :: rest) || (c ≠ '\n' && extScan rest)

/-- Go regexp match of the first PATTERNS entry: a dot-S-digits-E-digits
token somewhere, then a newline-free gap, then a container extension. -/
def matchesTvPattern (filename : String) : Bool :=
  tvScanAux filename.toList
where
  tvScanAux : List Char → Bool
    | [] => false
    | c :: rest =>
      (isTvTokenAt (c :: rest) && extScan (List.drop 7 (c :: rest))) || tvScanAux rest

/-- Go regexp match of the second PATTERNS entry: a dot-year token
somewhere, then a newline-free gap, then a container extension. -/
def matchesMoviePattern (filename : String) : Bool :=
  movieScanAux filename.toList
where
  movieScanAux : List Char → Bool
    | [] => false
    | c :: rest =>
      (isMovieTokenAt (c :: rest) && extScan (List.drop 5 (c :: rest))) || movieScanAux rest

/-- Go regexp match of the bare year pattern (19 or 20 then two digits,
anywhere). -/
def containsYear (filename : String) : Bool :=
  yearScanAux filename.toList
where
  yearScanAux : List Char → Bool
    | c1 :: c2 :: c3 :: c4 :: rest =>
      (((c1 = '1' && c2 = '9') || (c1 = '2' && c2 = '0')) && c3.isDigit && c4.isDigit) ||
        yearScanAux (c2 :: c3 :: c4 :: rest)
    | _ => false

/-- The regex-and-substring fallback chain of detectFileTemplate. -/
def detectFallback (filename : String) : String :=
  if matchesTvPattern filename then "tv_show"
  else if matchesMoviePattern filename then "movie"
  else if goContains (goToUpper filename) "S01E" ∨ goContains (goToUpper filename) "S02E" ∨
          goContains (goToUpper filename) "SEASON" ∨ goContains (goToUpper filename) "EPISODE" then
    "tv_show"
  else if containsYear filename then "movie"
  else ""

/-- detectFileTemplate: tokenizer signal first (episode or season gives
tv_show, else year gives movie), then the fallback chain. -/
def detectFileTemplate (parsed : Option Info) (filepath : String) : String :=
  let filename := baseName filepath
  match parsed with
  | some info =>
    if info.Episode ≠ 0 ∨ info.Season ≠ 0 then "tv_show"
    else if info.Year ≠ 0 then "movie"
    else detectFallback filename
  | none => detectFallback filename

/-! ## Report assembler (the stream loop of generateResponse, and
formatDuration) -/

/-- Zero-pad a natural number to two digits. -/
def pad2 (n : Nat) : String :=
  if n < 10 then "0" ++ toString n else toString n

/-- Zero-pad a natural number to three digits. -/
def pad3 (n : Nat) : String :=
  if n < 10 then "00" ++ toString n
  else if n < 100 then "0" ++ toString n
  else toString n

/-- Split a character list at the dot character (strings.Split on a
single-character separator). -/
def splitOnDot (cs : List Char) : List (List Char) :=
  cs.foldr (fun c acc =>
    if c = '.' then [] :: acc
    else
      match acc with
      | [] => [[c]]
      | h :: t => (c :: h) :: t) [[]]

/-- Parse a nonnegative fixed-point decimal string into integer part,
fraction digits value and fraction length.  This models the
strconv.ParseFloat call of formatDuration on the only shape of string
the program ever feeds it (the duration constants, all of the form
digits dot digits); every other string is treated as a parse error. -/
def parseFixed (s : String) : Option (Nat × Nat × Nat) :=
  match splitOnDot s.toList with
  | [i] =>
    if i ≠ [] ∧ i.all Char.isDigit then some (digitsVal i, 0, 0) else none
  | [i, f] =>
    if i ≠ [] ∧ f ≠ [] ∧ i.all Char.isDigit ∧ f.all Char.isDigit
    then some (digitsVal i, digitsVal f, f.length) else none
  | _ => none

/-- formatDuration: render a duration in seconds as H:MM:SS.mmm (the
Sprintf uses percent-d, percent-02d, percent-06.3f); parse failures
return the input unchanged.  The millisecond part rounds half up, which
agrees with the Go float formatting on the fixed-point inputs used. -/
def formatDuration (duration : String) : String :=
  match parseFixed duration with
  | none => duration
  | some (n, fracNum, fracLen) =>
    let hours := n / 3600
    let minutes := (n % 3600) / 60
    let secInt := (n % 3600) % 60
    let ms := (2 * fracNum * 1000 + 10 ^ fracLen) / (2 * 10 ^ fracLen)
    let secWhole := secInt + ms / 1000
    let msR := ms % 1000
    toString hours ++ ":" ++ pad2 minutes ++ ":" ++ pad2 secWhole ++ "." ++ pad3 msR

/-- The per-stream body of the additional-fields loop of
generateResponse: video streams get fixed AVC cosmetic fields and their
duration reformatted. -/
def finalizeStream (s : Stream) : Stream :=
  if s.CodecType = "video" then
    { s with
      CodecLongName := "H.264 / AVC / MPEG-4 AVC / MPEG-4 part 10",
      Profile := "Main",
      CodecTagString := "avc1",
      CodecTag := "0x31637661",
      PixFmt := "yuv420p",
      ColorRange := "tv",
      ColorSpace := "bt709",
      ColorTransfer := "bt709",
      ColorPrimaries := "bt709",
      ChromaLocation := "left",
      FieldOrder := "progressive",
      RFrameRate := "24000/1001",
      AvgFrameRate := "24000/1001",
      TimeBase := "1/24000",
      StartTime := "0:00:00.000000",
      Duration := formatDuration s.Duration,
      Disposition := some [("default", 1), ("dub", 0), ("original", 0)],
      Tags := some [("creation_time", "2024-10-22T13:48:39.000000Z"),
                    ("language", "und"), ("encoder", "JVT/AVC Coding")] }
  else s

/-- The additional-fields loop of generateResponse applied to a whole
response. -/
def assembleStreams (r : FFProbeResponse) : FFProbeResponse :=
  { r with Streams := r.Streams.map finalizeStream }

/-! ## generateResponse, with the nil-map assignment modelled -/

/-- Overwrite or append a key in an association list (Go map assignment
on a non-nil map). -/
def assocSet : List (String × String) → String → String → List (String × String)
  | [], k, v => [(k, v)]
  | (k', v') :: rest, k, v =>
    if k' = k then (k, v) :: rest else (k', v') :: assocSet rest k v

/-- Go map assignment: on a nil map this is a runtime fault (modelled as
`none`); otherwise the entry is set. -/
def mapAssign (m : Option (List (String × String))) (k v : String) :
    Option (List (String × String)) :=
  match m with
  | none => none
  | some l => some (assocSet l k v)

/-- Write one tag into the format tag map, faulting when the map is nil. -/
def setFormatTag (r : FFProbeResponse) (k v : String) : Except Unit FFProbeResponse :=
  match mapAssign r.Format.Tags k v with
  | none => Except.error ()
  | some tags => Except.ok { r with Format := { r.Format with Tags := some tags } }

/-- generateResponse of src/ffprobe.go.  The deep copy by
marshal-then-unmarshal is the identity on the modelled value (absent
maps stay absent).  `Except.ok none` models the nil return on an unknown
template name; `Except.error ()` models a runtime fault that crashes the
process.  The analyzeDuration parameter is unused in the source body. -/
def generateResponse (parsed : Option Info) (vorder aorder : List (String × String))
    (filepath tname : String) (_analyzeDuration : Bool) :
    Except Unit (Option FFProbeResponse) :=
  match TEMPLATES.lookup tname with
  | none => Except.ok none
  | some template => do
    let r0 := { template with Format := { template.Format with Filename := filepath } }
    let r1 ← setFormatTag r0 "title" (baseName filepath)
    let r2 := assembleStreams (enhanceResponseWithPTN parsed vorder aorder r1)
    let r3 ← setFormatTag r2 "major_brand" "mp42"
    let r4 ← setFormatTag r3 "minor_version" "0"
    let r5 ← setFormatTag r4 "compatible_brands" "mp42isomavc1"
    let r6 ← setFormatTag r5 "creation_time" "2024-10-22T13:48:39.000000Z"
    let r7 ← setFormatTag r6 "encoder" "DVDFab 12.0.7.0"
    Except.ok (some r7)

/-! ## Tuning-option rewriting (src/cmd/ffprobe-shim/main.go) -/

/-- reduceByFactor: parse the value as an integer and divide by the
factor (Go integer division truncates toward zero). -/
def reduceByFactor (value : String) (factor : Int) : Except Unit String :=
  match atoi value with
  | none => Except.error ()
  | some num => Except.ok (toString (Int.tdiv num factor))

/-- The forwarded value of one tuning option in main: a supplied value
is reduced by factor 10 (an unparsable value is a fatal error), an
absent value forwards the default 500000. -/
def forwardedTuningValue (supplied : Option String) : Except Unit String :=
  match supplied with
  | none => Except.ok "500000"
  | some v => reduceByFactor v 10

/-! ## Spec-side shape for claim C5

The claim quantifies over filenames of the shape star-S-NN-E-NN-star
with a known container extension; this predicate follows the claim
words (an S-digits-E-digits token anywhere, extension at the end) and
exists only to be compared with the code pattern. -/

/-- Whether an S-two-digits-E-two-digits token starts at the head. -/
def isSnnAt : List Char → Bool
  | 'S' :: d1 :: d2 :: 'E' :: d3 :: d4 :: _ =>
    d1.isDigit && d2.isDigit && d3.isDigit && d4.isDigit
  | _ => false

/-- Whether the string ends with the given string. -/
def endsWith (s suffix : String) : Bool :=
  isPrefOf suffix.toList.reverse s.toList.reverse

/-- The claim shape for C5: an SNNENN token anywhere plus a known
container extension. -/
def claimTvShape (filename : String) : Bool :=
  snnScanAux filename.toList &&
    (endsWith filename ".mkv" || endsWith filename ".mp4" || endsWith filename ".avi")
where
  snnScanAux : List Char → Bool
    | [] => false
    | c :: rest => isSnnAt (c :: rest) || snnScanAux rest

/-- No episode, season or year signal from the tokenizer: either it
failed, or all three numeric fields are zero. -/
def noTokenizerSignal : Option Info → Prop
  | none => True
  | some i => i.Episode = 0 ∧ i.Season = 0 ∧ i.Year = 0

end FFShim

namespace FFShim

/-! ## Projection lemmas for the per-stream enrichment functions -/

theorem setStreamDuration_CodecType (dur : String) (s : Stream) :
    (setStreamDuration dur s).CodecType = s.CodecType := by
  unfold setStreamDuration
  split
  · rfl
  · split <;> rfl

theorem setStreamDuration_Channels (dur : String) (s : Stream) :
    (setStreamDuration dur s).Channels = s.Channels := by
  unfold setStreamDuration
  split
  · rfl
  · split <;> rfl

theorem setStreamDuration_CodecName (dur : String) (s : Stream) :
    (setStreamDuration dur s).CodecName = s.CodecName := by
  unfold setStreamDuration
  split
  · rfl
  · split <;> rfl

theorem applyQuality_CodecType (q : String) (s : Stream) :
    (applyQuality q s).CodecType = s.CodecType := by
  simp only [applyQuality]
  repeat' split
  all_goals rfl

theorem applyQuality_Duration (q : String) (s : Stream) :
    (applyQuality q s).Duration = s.Duration := by
  simp only [applyQuality]
  repeat' split
  all_goals rfl

theorem applyQuality_Channels (q : String) (s : Stream) :
    (applyQuality q s).Channels = s.Channels := by
  simp only [applyQuality]
  repeat' split
  all_goals rfl

theorem applyQuality_CodecName_of_4k (q : String) (s : Stream)
    (hq : q = "2160p" ∨ q = "4K") (hv : s.CodecType = "video") :
    (applyQuality q s).CodecName = "hevc" := by
  rcases hq with rfl | rfl <;> simp [applyQuality, hv]

theorem applyVideoCodec_CodecType (vc : String) (s : Stream) :
    (applyVideoCodec vc s).CodecType = s.CodecType := by
  unfold applyVideoCodec; split <;> rfl

theorem applyVideoCodec_Duration (vc : String) (s : Stream) :
    (applyVideoCodec vc s).Duration = s.Duration := by
  unfold applyVideoCodec; split <;> rfl

theorem applyVideoCodec_Channels (vc : String) (s : Stream) :
    (applyVideoCodec vc s).Channels = s.Channels := by
  unfold applyVideoCodec; split <;> rfl

theorem applyVideoCodec_CodecName (vc : String) (s : Stream) :
    (applyVideoCodec vc s).CodecName = if s.CodecType = "video" then vc else s.CodecName := by
  unfold applyVideoCodec; split <;> simp_all

theorem applyAudioCodec_CodecType (ac : String) (s : Stream) :
    (applyAudioCodec ac s).CodecType = s.CodecType := by
  unfold applyAudioCodec; split <;> rfl

theorem applyAudioCodec_Duration (ac : String) (s : Stream) :
    (applyAudioCodec ac s).Duration = s.Duration := by
  unfold applyAudioCodec; split <;> rfl

theorem applyAudioCodec_Channels (ac : String) (s : Stream) :
    (applyAudioCodec ac s).Channels = s.Channels := by
  unfold applyAudioCodec; split <;> rfl

theorem applyAudioCodec_CodecName (ac : String) (s : Stream) :
    (applyAudioCodec ac s).CodecName = if s.CodecType = "audio" then ac else s.CodecName := by
  unfold applyAudioCodec; split <;> simp_all

theorem applyChannels_CodecType (ch : Int) (s : Stream) :
    (applyChannels ch s).CodecType = s.CodecType := by
  unfold applyChannels; split <;> rfl

theorem applyChannels_Duration (ch : Int) (s : Stream) :
    (applyChannels ch s).Duration = s.Duration := by
  unfold applyChannels; split <;> rfl

theorem applyChannels_CodecName (ch : Int) (s : Stream) :
    (applyChannels ch s).CodecName = s.CodecName := by
  unfold applyChannels; split <;> rfl

theorem applyChannels_Channels (ch : Int) (s : Stream) :
    (applyChannels ch s).Channels = if s.CodecType = "audio" then ch else s.Channels := by
  unfold applyChannels; split <;> simp_all

theorem finalizeStream_CodecType (s : Stream) :
    (finalizeStream s).CodecType = s.CodecType := by
  unfold finalizeStream; split <;> rfl

/-! ## Projection lemmas for the enrichment stages -/

theorem stageDuration_Streams (info : Info) (r : FFProbeResponse) :
    (stageDuration info r).Streams = r.Streams.map (setStreamDuration (durationFor info)) := rfl

theorem stageDuration_Format_Duration (info : Info) (r : FFProbeResponse) :
    (stageDuration info r).Format.Duration = durationFor info := rfl

theorem stageDuration_Format_BitRate (info : Info) (r : FFProbeResponse) :
    (stageDuration info r).Format.BitRate = r.Format.BitRate := rfl

theorem stageQuality_Streams (info : Info) (r : FFProbeResponse) :
    (stageQuality info r).Streams =
      if info.Quality ≠ "" ∧ (qualityDims info.Quality).1 ≠ 0 ∧ (qualityDims info.Quality).2 ≠ 0
      then r.Streams.map (applyQuality info.Quality) else r.Streams := by
  unfold stageQuality; split <;> simp_all

theorem stageQuality_Format (info : Info) (r : FFProbeResponse) :
    (stageQuality info r).Format = r.Format := by
  unfold stageQuality; split <;> rfl

theorem stageVideoCodec_Streams (vo : List (String × String)) (info : Info) (r : FFProbeResponse) :
    (stageVideoCodec vo info r).Streams =
      if detectVideoCodec vo info ≠ ""
      then r.Streams.map (applyVideoCodec (detectVideoCodec vo info)) else r.Streams := by
  unfold stageVideoCodec; split <;> simp_all

theorem stageVideoCodec_Format (vo : List (String × String)) (info : Info) (r : FFProbeResponse) :
    (stageVideoCodec vo info r).Format = r.Format := by
  unfold stageVideoCodec; split <;> rfl

theorem stageAudioCodec_Streams (ao : List (String × String)) (info : Info) (r : FFProbeResponse) :
    (stageAudioCodec ao info r).Streams =
      if detectAudioCodec ao info ≠ ""
      then r.Streams.map (applyAudioCodec (detectAudioCodec ao info)) else r.Streams := by
  unfold stageAudioCodec; split <;> simp_all

theorem stageAudioCodec_Format (ao : List (String × String)) (info : Info) (r : FFProbeResponse) :
    (stageAudioCodec ao info r).Format = r.Format := by
  unfold stageAudioCodec; split <;> rfl

theorem stageChannels_Streams (info : Info) (r : FFProbeResponse) :
    (stageChannels info r).Streams = r.Streams.map (applyChannels (channelsFor info)) := rfl

theorem stageChannels_Format (info : Info) (r : FFProbeResponse) :
    (stageChannels info r).Format = r.Format := rfl

theorem stageSize_Streams (info : Info) (r : FFProbeResponse) :
    (stageSize info r).Streams = r.Streams := rfl

theorem stageSize_Format_Duration (info : Info) (r : FFProbeResponse) :
    (stageSize info r).Format.Duration = r.Format.Duration := rfl

theorem stageSize_Format_BitRate (info : Info) (r : FFProbeResponse) :
    (stageSize info r).Format.BitRate = r.Format.BitRate := rfl

theorem stageTotalBitRate_Streams (r : FFProbeResponse) :
    (stageTotalBitRate r).Streams = r.Streams := by
  unfold stageTotalBitRate; split <;> rfl

theorem stageTotalBitRate_Format_Duration (r : FFProbeResponse) :
    (stageTotalBitRate r).Format.Duration = r.Format.Duration := by
  unfold stageTotalBitRate; split <;> rfl

theorem stageTotalBitRate_spec (r : FFProbeResponse) :
    (stageTotalBitRate r).Format.BitRate =
      if 0 < sumBitRates (stageTotalBitRate r).Streams
      then toString (sumBitRates (stageTotalBitRate r).Streams) else r.Format.BitRate := by
  unfold stageTotalBitRate
  split <;> simp_all

/-! ## Structural lemmas about the whole enrichment pass -/

theorem enhance_Format_Duration (info : Info) (vo ao : List (String × String))
    (r : FFProbeResponse) :
    (enhanceResponseWithPTN (some info) vo ao r).Format.Duration = durationFor info := by
  simp only [enhanceResponseWithPTN, stageTotalBitRate_Format_Duration, stageSize_Format_Duration,
    stageChannels_Format, stageAudioCodec_Format, stageVideoCodec_Format, stageQuality_Format,
    stageDuration_Format_Duration]

theorem enhance_mem_streams (info : Info) (vo ao : List (String × String)) (r : FFProbeResponse)
    (s : Stream) (hs : s ∈ (enhanceResponseWithPTN (some info) vo ao r).Streams) :
    ∃ t ∈ r.Streams, s.CodecType = t.CodecType ∧
      s.Duration = (setStreamDuration (durationFor info) t).Duration ∧
      s.Channels = (if t.CodecType = "audio" then channelsFor info else t.Channels) := by
  simp only [enhanceResponseWithPTN, stageTotalBitRate_Streams, stageSize_Streams,
    stageChannels_Streams, stageAudioCodec_Streams, stageVideoCodec_Streams,
    stageQuality_Streams, stageDuration_Streams] at hs
  split at hs <;> split at hs <;> split at hs <;>
    (simp only [List.map_map, List.mem_map, Function.comp] at hs
     obtain ⟨t, ht, rfl⟩ := hs
     refine ⟨t, ht, ?_, ?_, ?_⟩ <;>
       simp [applyChannels_CodecType, applyChannels_Duration, applyChannels_Channels,
         applyAudioCodec_CodecType, applyAudioCodec_Duration, applyAudioCodec_Channels,
         applyVideoCodec_CodecType, applyVideoCodec_Duration, applyVideoCodec_Channels,
         applyQuality_CodecType, applyQuality_Duration, applyQuality_Channels,
         setStreamDuration_CodecType, setStreamDuration_Channels])

end FFShim

namespace FFShim

theorem enhance_mem_streams_4k (info : Info) (vo ao : List (String × String))
    (r : FFProbeResponse) (s : Stream)
    (hq : info.Quality = "2160p" ∨ info.Quality = "4K")
    (hs : s ∈ (enhanceResponseWithPTN (some info) vo ao r).Streams) :
    ∃ t ∈ r.Streams, s.CodecType = t.CodecType ∧
      (t.CodecType = "video" →
        s.CodecName =
          (if detectVideoCodec vo info = "" then "hevc" else detectVideoCodec vo info)) := by
  have hqne : info.Quality ≠ "" ∧ (qualityDims info.Quality).1 ≠ 0 ∧
      (qualityDims info.Quality).2 ≠ 0 := by
    rcases hq with h | h <;> rw [h] <;> simp [qualityDims]
  simp only [enhanceResponseWithPTN, stageTotalBitRate_Streams, stageSize_Streams,
    stageChannels_Streams, stageAudioCodec_Streams, stageVideoCodec_Streams,
    stageQuality_Streams, stageDuration_Streams] at hs
  rw [if_pos hqne] at hs
  split at hs <;> split at hs <;>
    (simp only [List.map_map, List.mem_map, Function.comp] at hs
     obtain ⟨t, ht, rfl⟩ := hs
     refine ⟨t, ht, ?_, ?_⟩
     · simp [applyChannels_CodecType, applyAudioCodec_CodecType, applyVideoCodec_CodecType,
         applyQuality_CodecType, setStreamDuration_CodecType]
     · intro htv
       have hsv : (setStreamDuration (durationFor info) t).CodecType = "video" := by
         rw [setStreamDuration_CodecType]; exact htv
       simp_all [applyChannels_CodecName, applyAudioCodec_CodecName, applyVideoCodec_CodecName,
         applyChannels_CodecType, applyAudioCodec_CodecType, applyVideoCodec_CodecType,
         applyQuality_CodecType, setStreamDuration_CodecType,
         applyQuality_CodecName_of_4k info.Quality (setStreamDuration (durationFor info) t) hq hsv])

/-- Case analysis on a successful template lookup. -/
theorem template_cases (tname : String) (tmpl : FFProbeResponse)
    (h : TEMPLATES.lookup tname = some tmpl) :
    tmpl = tvShowTemplate ∨ tmpl = movieTemplate := by
  simp only [TEMPLATES, List.lookup] at h
  split at h
  · exact Or.inl (Option.some.inj h).symm
  · split at h
    · exact Or.inr (Option.some.inj h).symm
    · cases h

/-- Every stream of a stored template is a video or an audio stream. -/
theorem template_stream_types (tmpl : FFProbeResponse)
    (h : tmpl = tvShowTemplate ∨ tmpl = movieTemplate) (t : Stream) (ht : t ∈ tmpl.Streams) :
    t.CodecType = "video" ∨ t.CodecType = "audio" := by
  rcases h with rfl | rfl <;>
    (simp only [tvShowTemplate, movieTemplate, List.mem_cons, List.not_mem_nil,
       or_false] at ht
     rcases ht with rfl | rfl
     · exact Or.inl rfl
     · exact Or.inr rfl)

end FFShim

namespace FFShim

/-! ## Concrete inputs used by counterexamples and witnesses -/

/-- Hint for a plain non-anime episode with no quality or codec signal. -/
def plainEpisodeInfo : Info := { emptyInfo with Episode := 2, Title := "Show" }

/-- Hint carrying a 4K quality label together with an x264 codec label. -/
def fourKx264Info : Info := { emptyInfo with Episode := 1, Quality := "2160p", Codec := "x264" }

/-- Hint whose release group mentions both 7.1 and 5.1. -/
def bothChannelsInfo : Info := { emptyInfo with Episode := 1, Group := "7.1 5.1" }

/-- Hint whose release group contains two different video codec synonym
keys (xvid and avc). -/
def ambiguousGroupInfo : Info := { emptyInfo with Episode := 1, Group := "xvid.avc" }

/-- The video codec synonym entries in an alternative iteration order
(the avc entry first); Go map iteration may present the entries in any
order. -/
def vorderAlt : List (String × String) :=
  [("avc", "h264"), ("x264", "h264"), ("x265", "hevc"), ("h264", "h264"), ("hevc", "hevc"),
   ("h265", "hevc"), ("xvid", "mpeg4"), ("divx", "mpeg4"), ("10bit", "hevc"),
   ("vc-1", "vc1"), ("bluray", "h264"), ("web-dl", "h264"), ("webrip", "h264"),
   ("hdtv", "h264")]

/-! ## Claim C1 -/

/-- C1: the claim states that report generation never faults for a
classified input.  In the code it always does: generateResponse assigns
the title tag into the format tag map, and that map is absent (nil) in
both stored baselines, so the write is a runtime fault that crashes the
process, for every hint, every map order and every file path. -/
theorem generateResponse_always_faults (parsed : Option Info)
    (vo ao : List (String × String)) (filepath : String) (ad : Bool) :
    generateResponse parsed vo ao filepath "tv_show" ad = Except.error () ∧
    generateResponse parsed vo ao filepath "movie" ad = Except.error () :=
  ⟨rfl, rfl⟩

/-! ## Claim C3 -/

/-- C3: enrichment is not a deterministic function of the hint alone.
The substring codec search walks a Go map whose iteration order is
randomized; for a hint whose group field contains both the xvid and the
avc synonym keys, two legal iteration orders of the same video codec
table (the second list is a permutation of the first) produce different
enriched reports. -/
theorem codec_search_depends_on_map_order :
    vorderAlt.Perm VIDEO_CODEC_MAP ∧
    enhanceResponseWithPTN (some ambiguousGroupInfo) VIDEO_CODEC_MAP AUDIO_CODEC_MAP
        tvShowTemplate ≠
      enhanceResponseWithPTN (some ambiguousGroupInfo) vorderAlt AUDIO_CODEC_MAP
        tvShowTemplate := by
  constructor
  · decide
  · decide

/-! ## Claim C9 -/

/-- C9: a supplied numeric tuning value forwards as its decimal string
after truncating division by ten, an absent value forwards as the
default 500000, and the value 5000000 forwards as 500000. -/
theorem tuning_option_reduction (v : String) (n : Int) (h : atoi v = some n) :
    forwardedTuningValue (some v) = Except.ok (toString (Int.tdiv n 10)) ∧
    forwardedTuningValue none = Except.ok "500000" ∧
    forwardedTuningValue (some "5000000") = Except.ok "500000" := by
  refine ⟨?_, rfl, rfl⟩
  simp [forwardedTuningValue, reduceByFactor, h]

/-- Witness for C9 at the supplied value 5000000. -/
theorem tuning_option_reduction_witness :
    forwardedTuningValue (some "5000000") = Except.ok (toString (Int.tdiv 5000000 10)) ∧
    forwardedTuningValue none = Except.ok "500000" ∧
    forwardedTuningValue (some "5000000") = Except.ok "500000" :=
  tuning_option_reduction "5000000" 5000000 rfl

/-! ## Claim C2 -/

/-- C2 counterexample: in the final serialized report for a plain
episode, the video stream duration was reformatted to clock form while
the format duration keeps the seconds form, so the two are not textually
equal. -/
theorem final_stream_duration_mismatch :
    (assembleStreams (enhanceResponseWithPTN (some plainEpisodeInfo) VIDEO_CODEC_MAP
        AUDIO_CODEC_MAP tvShowTemplate)).Streams.map Stream.Duration =
      ["0:45:00.000", "2700.000000"] ∧
    (assembleStreams (enhanceResponseWithPTN (some plainEpisodeInfo) VIDEO_CODEC_MAP
        AUDIO_CODEC_MAP tvShowTemplate)).Format.Duration = "2700.000000" ∧
    ("0:45:00.000" : String) ≠ "2700.000000" :=
  ⟨rfl, rfl, by decide⟩

/-- C2 as amended: once enrichment completes (before the report
assembler reformats video stream durations), every stream duration of a
template-derived report textually equals the format duration. -/
theorem enriched_durations_equal_format (info : Info) (vo ao : List (String × String))
    (tname : String) (tmpl : FFProbeResponse) (h : TEMPLATES.lookup tname = some tmpl) :
    ∀ s ∈ (enhanceResponseWithPTN (some info) vo ao tmpl).Streams,
      s.Duration = (enhanceResponseWithPTN (some info) vo ao tmpl).Format.Duration := by
  intro s hs
  rw [enhance_Format_Duration]
  obtain ⟨t, ht, -, hdur, -⟩ := enhance_mem_streams info vo ao tmpl s hs
  rcases template_stream_types tmpl (template_cases tname tmpl h) t ht with hv | ha
  · rw [hdur]; simp [setStreamDuration, hv]
  · rw [hdur]; simp [setStreamDuration, ha]

/-- Witness for the amended C2 on the tv template and a concrete hint. -/
theorem enriched_durations_equal_format_witness :
    ((enhanceResponseWithPTN (some plainEpisodeInfo) [] [] tvShowTemplate).Streams.getD 0
        emptyStream).Duration =
      (enhanceResponseWithPTN (some plainEpisodeInfo) [] [] tvShowTemplate).Format.Duration :=
  enriched_durations_equal_format plainEpisodeInfo [] [] "tv_show" tvShowTemplate rfl _
    (by decide)

end FFShim

namespace FFShim

/-! ## Claim C4 -/

/-- C4 counterexample: with quality 2160p and codec label x264, the
final video stream codec name is h264, not hevc — the codec inference
stage runs after the 4K override and wins. -/
theorem codec_hint_overrides_4k :
    (enhanceResponseWithPTN (some fourKx264Info) VIDEO_CODEC_MAP AUDIO_CODEC_MAP
        tvShowTemplate).Streams.map Stream.CodecName = ["h264", "aac"] ∧
    ((enhanceResponseWithPTN (some fourKx264Info) VIDEO_CODEC_MAP AUDIO_CODEC_MAP
        tvShowTemplate).Streams.getD 0 emptyStream).CodecType = "video" ∧
    ("h264" : String) ≠ "hevc" :=
  ⟨rfl, rfl, by decide⟩

/-- C4 as amended: for a 4K or 2160p quality label the resolution rule
writes hevc, but the later two-stage codec inference overwrites it
whenever it finds a codec; the final video codec name is hevc exactly
when inference finds nothing, and the inferred name otherwise. -/
theorem video_codec_after_4k_rule (info : Info) (vo ao : List (String × String))
    (r : FFProbeResponse) (s : Stream)
    (hq : info.Quality = "2160p" ∨ info.Quality = "4K")
    (hs : s ∈ (enhanceResponseWithPTN (some info) vo ao r).Streams)
    (hv : s.CodecType = "video") :
    s.CodecName =
      (if detectVideoCodec vo info = "" then "hevc" else detectVideoCodec vo info) := by
  obtain ⟨t, ht, hct, himp⟩ := enhance_mem_streams_4k info vo ao r s hq hs
  exact himp (by rw [← hct]; exact hv)

/-- Hint with a 4K label and no codec signal at all. -/
def fourKnoCodecInfo : Info := { emptyInfo with Quality := "4K", Episode := 1 }

/-- Witness for the amended C4 on the movie template. -/
theorem video_codec_after_4k_rule_witness :
    ((enhanceResponseWithPTN (some fourKnoCodecInfo) [] [] movieTemplate).Streams.getD 0
        emptyStream).CodecName =
      (if detectVideoCodec [] fourKnoCodecInfo = "" then "hevc"
       else detectVideoCodec [] fourKnoCodecInfo) :=
  video_codec_after_4k_rule fourKnoCodecInfo [] [] movieTemplate
    ((enhanceResponseWithPTN (some fourKnoCodecInfo) [] [] movieTemplate).Streams.getD 0
      emptyStream)
    (Or.inr rfl) (by decide) (by decide)

/-! ## Claim C5 -/

/-- C5 counterexample: the filename ShowS05E07.mkv has the claim shape
(an SNNENN token plus a known container extension), yet with no
tokenizer signal the classifier returns the empty category (Unknown),
because the code regex demands a dot immediately before the token and
the looser substring heuristics only cover S01E and S02E. -/
theorem undotted_episode_token_unclassified :
    claimTvShape "ShowS05E07.mkv" = true ∧
    detectFileTemplate (some emptyInfo) "ShowS05E07.mkv" = "" ∧
    ("" : String) ≠ "tv_show" :=
  ⟨rfl, rfl, by decide⟩

/-- C5 as amended: when the tokenizer yields no episode, season or year
signal, every filename whose base name matches the code pattern (a dot
immediately before the S-digits-E-digits token, then a known container
extension) classifies as tv_show. -/
theorem dotted_episode_pattern_gives_tv_show (parsed : Option Info) (fp : String)
    (h1 : noTokenizerSignal parsed) (h2 : matchesTvPattern (baseName fp) = true) :
    detectFileTemplate parsed fp = "tv_show" := by
  cases parsed with
  | none => simp [detectFileTemplate, detectFallback, h2]
  | some i =>
    obtain ⟨he, hs, hy⟩ := h1
    simp [detectFileTemplate, detectFallback, h2, he, hs, hy]

/-- Witness for the amended C5 on a dotted episode filename. -/
theorem dotted_episode_pattern_gives_tv_show_witness :
    detectFileTemplate (some emptyInfo) "Show.S05E07.mkv" = "tv_show" :=
  dotted_episode_pattern_gives_tv_show (some emptyInfo) "Show.S05E07.mkv"
    ⟨rfl, rfl, rfl⟩ (by decide)

/-! ## Claim C6 -/

/-- C6: after enrichment of a template-derived report, the format bit
rate is the decimal string of the sum of the (possibly just-updated)
stream bit rates whenever that sum is positive, and keeps the template
default otherwise. -/
theorem format_bitrate_is_stream_sum (info : Info) (vo ao : List (String × String))
    (tname : String) (tmpl : FFProbeResponse) (h : TEMPLATES.lookup tname = some tmpl) :
    (enhanceResponseWithPTN (some info) vo ao tmpl).Format.BitRate =
      if 0 < sumBitRates (enhanceResponseWithPTN (some info) vo ao tmpl).Streams
      then toString (sumBitRates (enhanceResponseWithPTN (some info) vo ao tmpl).Streams)
      else tmpl.Format.BitRate := by
  have hpre : (stageSize info (stageChannels info (stageAudioCodec ao info
      (stageVideoCodec vo info (stageQuality info (stageDuration info tmpl)))))).Format.BitRate
      = tmpl.Format.BitRate := by
    simp only [stageSize_Format_BitRate, stageChannels_Format, stageAudioCodec_Format,
      stageVideoCodec_Format, stageQuality_Format, stageDuration_Format_BitRate]
  have hmain := stageTotalBitRate_spec (stageSize info (stageChannels info (stageAudioCodec ao
    info (stageVideoCodec vo info (stageQuality info (stageDuration info tmpl))))))
  rw [hpre] at hmain
  exact hmain

/-- Witness for C6 on the tv template and a concrete hint. -/
theorem format_bitrate_is_stream_sum_witness :
    (enhanceResponseWithPTN (some ambiguousGroupInfo) [] [] tvShowTemplate).Format.BitRate =
      if 0 < sumBitRates (enhanceResponseWithPTN (some ambiguousGroupInfo) [] []
          tvShowTemplate).Streams
      then toString (sumBitRates (enhanceResponseWithPTN (some ambiguousGroupInfo) [] []
          tvShowTemplate).Streams)
      else tvShowTemplate.Format.BitRate :=
  format_bitrate_is_stream_sum ambiguousGroupInfo [] [] "tv_show" tvShowTemplate rfl

/-! ## Claim C7 -/

/-- C7 counterexample: a release group containing both 7.1 and 5.1
yields channel count 6 on the audio stream, not the 8 the claim states,
because the code tests the 5.1 substring first. -/
theorem both_channel_hints_give_six :
    (enhanceResponseWithPTN (some bothChannelsInfo) VIDEO_CODEC_MAP AUDIO_CODEC_MAP
        tvShowTemplate).Streams.map Stream.Channels = [0, 6] ∧
    ((enhanceResponseWithPTN (some bothChannelsInfo) VIDEO_CODEC_MAP AUDIO_CODEC_MAP
        tvShowTemplate).Streams.getD 1 emptyStream).CodecType = "audio" ∧
    ((6 : Int) ≠ 8) :=
  ⟨rfl, rfl, by decide⟩

/-- C7 as amended: the channel count written to every audio stream is 6
when the release-group hint contains 5.1 (that check comes first), else
8 when it contains 7.1, else 2; when both substrings occur the result
is 6. -/
theorem channel_count_rule (info : Info) (vo ao : List (String × String))
    (r : FFProbeResponse) (s : Stream)
    (hs : s ∈ (enhanceResponseWithPTN (some info) vo ao r).Streams)
    (ha : s.CodecType = "audio") :
    s.Channels =
      (if goContains info.Group "5.1" then 6
       else if goContains info.Group "7.1" then 8 else 2) := by
  obtain ⟨t, ht, hct, -, hch⟩ := enhance_mem_streams info vo ao r s hs
  have hta : t.CodecType = "audio" := by rw [← hct]; exact ha
  rw [hch, if_pos hta]
  rfl

/-- Witness for the amended C7 at a group hint containing both 7.1 and
5.1. -/
theorem channel_count_rule_witness :
    ((enhanceResponseWithPTN (some bothChannelsInfo) [] [] tvShowTemplate).Streams.getD 1
        emptyStream).Channels =
      (if goContains bothChannelsInfo.Group "5.1" then 6
       else if goContains bothChannelsInfo.Group "7.1" then 8 else 2) :=
  channel_count_rule bothChannelsInfo [] [] tvShowTemplate
    ((enhanceResponseWithPTN (some bothChannelsInfo) [] [] tvShowTemplate).Streams.getD 1
      emptyStream)
    (by decide) (by decide)

/-! ## Claim C8 -/

/-- C8: the duration written to the format and to every stream of a
template-derived report during enrichment is 24.000000 for an episode
whose title contains the case-insensitive substring anime, 2700.000000
for any other episode, and 7200.000000 on the movie path. -/
theorem duration_constants_rule (info : Info) (vo ao : List (String × String))
    (tname : String) (tmpl : FFProbeResponse) (h : TEMPLATES.lookup tname = some tmpl) :
    (enhanceResponseWithPTN (some info) vo ao tmpl).Format.Duration =
      (if info.Episode ≠ 0 then
        if goContains (goToLower info.Title) "anime" then "24.000000" else "2700.000000"
       else "7200.000000") ∧
    ∀ s ∈ (enhanceResponseWithPTN (some info) vo ao tmpl).Streams,
      s.Duration =
        (if info.Episode ≠ 0 then
          if goContains (goToLower info.Title) "anime" then "24.000000" else "2700.000000"
         else "7200.000000") := by
  constructor
  · exact enhance_Format_Duration info vo ao tmpl
  · intro s hs
    obtain ⟨t, ht, -, hdur, -⟩ := enhance_mem_streams info vo ao tmpl s hs
    rcases template_stream_types tmpl (template_cases tname tmpl h) t ht with hv | ha
    · rw [hdur]; simp [setStreamDuration, hv, durationFor]
    · rw [hdur]; simp [setStreamDuration, ha, durationFor]

/-- Hint for an episode of a title containing the word anime. -/
def animeEpisodeInfo : Info := { emptyInfo with Episode := 5, Title := "Some Anime Title" }

/-- Witness for C8 at an anime episode hint. -/
theorem duration_constants_rule_witness :
    ((enhanceResponseWithPTN (some animeEpisodeInfo) [] [] movieTemplate).Streams.getD 0
        emptyStream).Duration =
      (if animeEpisodeInfo.Episode ≠ 0 then
        if goContains (goToLower animeEpisodeInfo.Title) "anime" then "24.000000"
        else "2700.000000"
       else "7200.000000") :=
  (duration_constants_rule animeEpisodeInfo [] [] "movie" movieTemplate rfl).2
    ((enhanceResponseWithPTN (some animeEpisodeInfo) [] [] movieTemplate).Streams.getD 0
      emptyStream)
    (by decide)

/-! ## Claim C10 -/

/-- C10: in every assembled report, every video stream carries the fixed
AVC codec long name, profile Main and codec tag string avc1, while its
codec name is whatever the input stream carried — so the long name can
contradict a hevc or mpeg4 codec name. -/
theorem video_stream_fixed_avc_fields (r : FFProbeResponse) (s : Stream)
    (hs : s ∈ (assembleStreams r).Streams) (hv : s.CodecType = "video") :
    s.CodecLongName = "H.264 / AVC / MPEG-4 AVC / MPEG-4 part 10" ∧
    s.Profile = "Main" ∧ s.CodecTagString = "avc1" ∧
    ∃ t ∈ r.Streams, s = finalizeStream t ∧ s.CodecName = t.CodecName := by
  simp only [assembleStreams, List.mem_map] at hs
  obtain ⟨t, ht, rfl⟩ := hs
  have hct : t.CodecType = "video" := by
    rw [← finalizeStream_CodecType]; exact hv
  refine ⟨?_, ?_, ?_, t, ht, rfl, ?_⟩ <;> simp [finalizeStream, hct]

/-- A video stream whose codec name is hevc. -/
def hevcVideoStream : Stream := { emptyStream with CodecType := "video", CodecName := "hevc" }

/-- A response holding just the hevc video stream. -/
def hevcResponse : FFProbeResponse := { Streams := [hevcVideoStream], Format := emptyFormat }

/-- Witness for C10 at a hevc-named video stream: the long name is still
the fixed AVC string while the codec name stays hevc. -/
theorem video_stream_fixed_avc_fields_witness :
    (finalizeStream hevcVideoStream).CodecLongName =
      "H.264 / AVC / MPEG-4 AVC / MPEG-4 part 10" ∧
    (finalizeStream hevcVideoStream).Profile = "Main" ∧
    (finalizeStream hevcVideoStream).CodecTagString = "avc1" ∧
    ∃ t ∈ hevcResponse.Streams, finalizeStream hevcVideoStream = finalizeStream t ∧
      (finalizeStream hevcVideoStream).CodecName = t.CodecName :=
  video_stream_fixed_avc_fields hevcResponse (finalizeStream hevcVideoStream)
    (by simp [hevcResponse, assembleStreams]) (by decide)

end FFShim
